import Mathlib

/-!
Shallow embedding of the `react-native-smart-placeholder` package.

The component `SmartPlaceholder` (src/src/index.tsx) renders a shimmer
placeholder with seven animation presets.  An effect hook builds a looping
timed transition that drives a progress scalar from 0 to 1; each render
strategy consumes that scalar through interpolation nodes.

Modelling choices:
- numeric style values are rationals (`ℚ`);
- `width`/`height` props (`number | string` in TypeScript) are the sum type
  `Dim`;
- `animationStyle` is a `String`, as it is at JavaScript runtime, so that
  dispatch over unknown tags is expressible;
- an animated interpolation node applied to a progress value `p` is
  evaluated with the interpolation formula of the host toolkit
  (`output0 + (p - input0) / (input1 - input0) * (output1 - output0)` on the
  segment containing `p`);
- animated colour nodes are kept symbolic (`ColorExpr`) because the code
  passes the unevaluated node into the style object; `keyLookup` reads the
  node off at an exact keyframe of its input range.
-/

/-- A `width` or `height` prop: `number | string` in the source. -/
inductive Dim where
  | num (v : ℚ)
  | str (s : String)
deriving DecidableEq

/-- Props after the destructuring defaults of `SmartPlaceholder`
(src/src/index.tsx lines 28-36) have been applied. -/
structure Props where
  width : Dim
  height : Dim
  backgroundColor : String
  animationColor : String
  animationStyle : String
  borderRadius : ℚ
deriving DecidableEq

/-- Props as supplied by the caller: every field may be omitted. -/
structure PropsIn where
  width : Option Dim := none
  height : Option Dim := none
  backgroundColor : Option String := none
  animationColor : Option String := none
  animationStyle : Option String := none
  borderRadius : Option ℚ := none
deriving DecidableEq

/-- The destructuring defaults of `SmartPlaceholder`
(src/src/index.tsx lines 28-36): `width = 100`, `height = 20`,
`backgroundColor = "#8485852c"`, `animationColor = "#83848578"`,
`animationStyle = "fade"`, `borderRadius = 4`. -/
def applyDefaults (p : PropsIn) : Props where
  width := p.width.getD (Dim.num 100)
  height := p.height.getD (Dim.num 20)
  backgroundColor := p.backgroundColor.getD "#8485852c"
  animationColor := p.animationColor.getD "#83848578"
  animationStyle := p.animationStyle.getD "fade"
  borderRadius := p.borderRadius.getD 4

/-- The default `animationStyle` stated by the doc comment of
src/src/index.tsx (line 24) and by the doc comment of
src/types/index.d.ts (line 22): both say `'linear'`. -/
def documentedDefaultAnimationStyle : String := "linear"

/-- The `animationStyle` union declared by `SmartPlaceholderProps` in
src/src/index.tsx line 9. -/
def tsxAnimationStyleUnion : List String :=
  ["linear", "radial", "directional", "reverse", "pulse", "fade", "skeleton"]

/-- The `animationStyle` union declared by `SmartPlaceholderProps` in
src/types/index.d.ts line 8. -/
def dtsAnimationStyleUnion : List String :=
  ["linear", "radial", "directional", "reverse", "pulse", "fade", "skeleton"]

/-- The seven known style tags, in the order of the dispatch switch
(src/src/index.tsx lines 260-277). -/
def sevenStyles : List String :=
  ["linear", "radial", "directional", "reverse", "pulse", "fade", "skeleton"]

/-- The two easing curves the component selects between
(src/src/index.tsx line 53): the toolkit's `Easing.ease` preset and
`Easing.linear`. -/
inductive EasingT where
  | ease
  | linear
deriving DecidableEq

/-- The configuration of the timed transition built by the effect hook. -/
structure AnimationConfig where
  toValue : ℚ
  duration : ℕ
  easing : EasingT
  useNativeDriver : Bool
deriving DecidableEq

/-- The animation driver (src/src/index.tsx lines 40-64): for
`"skeleton"` the effect returns early and no animation is created;
otherwise a looping timed transition to 1 is built with duration 1500 for
`"pulse"`/`"fade"` and 1200 otherwise, easing `Easing.ease` for
`"pulse"` and `Easing.linear` otherwise, `useNativeDriver: false`. -/
def animationFor (animationStyle : String) : Option AnimationConfig :=
  if animationStyle = "skeleton" then
    none
  else
    some
      { toValue := 1
        duration := if animationStyle = "pulse" ∨ animationStyle = "fade" then 1500 else 1200
        easing := if animationStyle = "pulse" then EasingT.ease else EasingT.linear
        useNativeDriver := false }

/-- One scheduler step of the animated value: with no animation attached
(the skeleton early return) the value keeps its current contents; with an
animation attached the driver may move it to whatever the timing curve
computes next. -/
def tick (animationStyle : String) (p next : ℚ) : ℚ :=
  match animationFor animationStyle with
  | none => p
  | some _ => next

/-- The progress scalar after a whole sequence of scheduler steps, starting
from the initial contents of the animated value. -/
def progressTrace (animationStyle : String) : List ℚ → ℚ → ℚ
  | [], p => p
  | next :: rest, p => progressTrace animationStyle rest (tick animationStyle p next)

/-- Two-point interpolation (input range `[i0, i1]`, output range
`[o0, o1]`) evaluated at `p`, as the host toolkit computes it. -/
def interpolate2 (i0 i1 o0 o1 p : ℚ) : ℚ :=
  o0 + (p - i0) / (i1 - i0) * (o1 - o0)

/-- Three-point interpolation (input range `[i0, i1, i2]`): the segment
containing `p` is the first one when `p ≤ i1`, the second otherwise. -/
def interpolate3 (i0 i1 i2 o0 o1 o2 p : ℚ) : ℚ :=
  if p ≤ i1 then interpolate2 i0 i1 o0 o1 p else interpolate2 i1 i2 o1 o2 p

/-- An animated colour node as stored in a style object: either a constant
colour string or an unevaluated interpolation over colour strings. -/
inductive ColorExpr where
  | const (s : String)
  | interp (inputRange : List ℚ) (outputRange : List String)
deriving DecidableEq

/-- Read a colour interpolation off at a value that is exactly one of its
input-range keyframes. -/
def keyLookup : List ℚ → List String → ℚ → Option String
  | i :: is, o :: os, p => if p = i then some o else keyLookup is os p
  | _, _, _ => none

/-- The colour an animated colour node takes at an exact keyframe. -/
def ColorExpr.atKey : ColorExpr → ℚ → Option String
  | ColorExpr.const s, _ => some s
  | ColorExpr.interp ir outs, p => keyLookup ir outs p

/-- The animated overlay child a strategy places inside the container. -/
inductive Overlay where
  | noOverlay
  | shimmerX (translateX : ℚ) (width : ℚ) (color : String)
  | shimmerY (translateY : ℚ) (height : ℚ) (width : String) (color : String)
  | radialLayer (scale : ℚ) (opacity : ℚ) (color : String)
deriving DecidableEq

/-- The horizontal translation of an overlay, when it has one. -/
def Overlay.xShift : Overlay → Option ℚ
  | Overlay.shimmerX t _ _ => some t
  | _ => none

/-- The vertical translation of an overlay, when it has one. -/
def Overlay.yShift : Overlay → Option ℚ
  | Overlay.shimmerY t _ _ _ => some t
  | _ => none

/-- The bar width of a horizontal shimmer overlay. -/
def Overlay.barW : Overlay → Option ℚ
  | Overlay.shimmerX _ w _ => some w
  | _ => none

/-- The bar height of a vertical shimmer overlay. -/
def Overlay.barH : Overlay → Option ℚ
  | Overlay.shimmerY _ h _ _ => some h
  | _ => none

/-- The visual output of one render pass at a given progress value. -/
structure RenderOutput where
  containerWidth : Dim
  containerHeight : Dim
  containerBackgroundColor : ColorExpr
  containerBorderRadius : ℚ
  containerOpacity : Option ℚ
  overlay : Overlay
deriving DecidableEq

/-- `renderLinear` (src/src/index.tsx lines 70-93): a bar 30% of the
container width translates from `-shimmerWidth` to `containerWidth`;
a non-numeric width falls back to 100 for that computation only. -/
def renderLinear (props : Props) (p : ℚ) : RenderOutput :=
  let containerWidth : ℚ := match props.width with | Dim.num w => w | Dim.str _ => 100
  let shimmerWidth : ℚ := containerWidth * (3 / 10)
  let translateX : ℚ := interpolate2 0 1 (-shimmerWidth) containerWidth p
  { containerWidth := props.width
    containerHeight := props.height
    containerBackgroundColor := ColorExpr.const props.backgroundColor
    containerBorderRadius := props.borderRadius
    containerOpacity := none
    overlay := Overlay.shimmerX translateX shimmerWidth props.animationColor }

/-- `renderRadial` (src/src/index.tsx lines 99-124): an overlay layer
scales 0.5 → 1.5 → 0.5 and fades opacity 0.3 → 1 → 0.3 across the loop. -/
def renderRadial (props : Props) (p : ℚ) : RenderOutput :=
  let scale : ℚ := interpolate3 0 (1 / 2) 1 (1 / 2) (3 / 2) (1 / 2) p
  let opacity : ℚ := interpolate3 0 (1 / 2) 1 (3 / 10) 1 (3 / 10) p
  { containerWidth := props.width
    containerHeight := props.height
    containerBackgroundColor := ColorExpr.const props.backgroundColor
    containerBorderRadius := props.borderRadius
    containerOpacity := none
    overlay := Overlay.radialLayer scale opacity props.animationColor }

/-- `renderDirectional` (src/src/index.tsx lines 130-154): a bar 30% of the
container height translates from `-shimmerHeight` to `containerHeight`;
a non-numeric height falls back to 20 for that computation only. -/
def renderDirectional (props : Props) (p : ℚ) : RenderOutput :=
  let containerHeight : ℚ := match props.height with | Dim.num h => h | Dim.str _ => 20
  let shimmerHeight : ℚ := containerHeight * (3 / 10)
  let translateY : ℚ := interpolate2 0 1 (-shimmerHeight) containerHeight p
  { containerWidth := props.width
    containerHeight := props.height
    containerBackgroundColor := ColorExpr.const props.backgroundColor
    containerBorderRadius := props.borderRadius
    containerOpacity := none
    overlay := Overlay.shimmerY translateY shimmerHeight "100%" props.animationColor }

/-- `renderReverse` (src/src/index.tsx lines 160-183): same bar as
`renderLinear` but translating from `containerWidth` to `-shimmerWidth`. -/
def renderReverse (props : Props) (p : ℚ) : RenderOutput :=
  let containerWidth : ℚ := match props.width with | Dim.num w => w | Dim.str _ => 100
  let shimmerWidth : ℚ := containerWidth * (3 / 10)
  let translateX : ℚ := interpolate2 0 1 containerWidth (-shimmerWidth) p
  { containerWidth := props.width
    containerHeight := props.height
    containerBackgroundColor := ColorExpr.const props.backgroundColor
    containerBorderRadius := props.borderRadius
    containerOpacity := none
    overlay := Overlay.shimmerX translateX shimmerWidth props.animationColor }

/-- `renderPulse` (src/src/index.tsx lines 189-210): the whole container is
filled with `animationColor` and its opacity oscillates 0.3 → 1 → 0.3. -/
def renderPulse (props : Props) (p : ℚ) : RenderOutput :=
  let opacity : ℚ := interpolate3 0 (1 / 2) 1 (3 / 10) 1 (3 / 10) p
  { containerWidth := props.width
    containerHeight := props.height
    containerBackgroundColor := ColorExpr.const props.animationColor
    containerBorderRadius := props.borderRadius
    containerOpacity := some opacity
    overlay := Overlay.noOverlay }

/-- `renderFade` (src/src/index.tsx lines 216-236): the container
background colour interpolates
`backgroundColor → animationColor → backgroundColor` across the loop. -/
def renderFade (props : Props) (_p : ℚ) : RenderOutput :=
  { containerWidth := props.width
    containerHeight := props.height
    containerBackgroundColor :=
      ColorExpr.interp [0, 1 / 2, 1]
        [props.backgroundColor, props.animationColor, props.backgroundColor]
    containerBorderRadius := props.borderRadius
    containerOpacity := none
    overlay := Overlay.noOverlay }

/-- `renderSkeleton` (src/src/index.tsx lines 242-257): a static box with
the base background colour and no overlay. -/
def renderSkeleton (props : Props) (_p : ℚ) : RenderOutput :=
  { containerWidth := props.width
    containerHeight := props.height
    containerBackgroundColor := ColorExpr.const props.backgroundColor
    containerBorderRadius := props.borderRadius
    containerOpacity := none
    overlay := Overlay.noOverlay }

/-- The dispatch switch (src/src/index.tsx lines 260-277): a direct mapping
from the style tag to a render strategy, with `renderLinear` as the
default case. -/
def render (props : Props) (p : ℚ) : RenderOutput :=
  match props.animationStyle with
  | "linear" => renderLinear props p
  | "radial" => renderRadial props p
  | "directional" => renderDirectional props p
  | "reverse" => renderReverse props p
  | "pulse" => renderPulse props p
  | "fade" => renderFade props p
  | "skeleton" => renderSkeleton props p
  | _ => renderLinear props p

theorem progressTrace_skeleton_const (updates : List ℚ) (p : ℚ) :
    progressTrace "skeleton" updates p = p := by
  induction updates generalizing p with
  | nil => rfl
  | cons n rest ih => simpa [progressTrace, tick, animationFor] using ih p

theorem render_of_fade_tag (props : Props) (p : ℚ) (h : props.animationStyle = "fade") :
    render props p = renderFade props p := by
  obtain ⟨w, ht, bg, ac, as, br⟩ := props
  subst h
  rfl

theorem render_of_skeleton_tag (props : Props) (p : ℚ) (h : props.animationStyle = "skeleton") :
    render props p = renderSkeleton props p := by
  obtain ⟨w, ht, bg, ac, as, br⟩ := props
  subst h
  rfl

/-- C2: the timed transition built by the animation driver uses the
toolkit's `Easing.ease` curve exactly when `animationStyle = "pulse"`, and
`Easing.linear` for every other animated style. -/
theorem c2_easing_policy (s : String) (cfg : AnimationConfig)
    (h : animationFor s = some cfg) :
    cfg.easing = if s = "pulse" then EasingT.ease else EasingT.linear := by
  unfold animationFor at h
  split at h
  · exact Option.noConfusion h
  · injection h with h
    subst h
    rfl

/-- C2 witness: the pulse transition uses the `Easing.ease` curve. -/
theorem c2_easing_policy_witness :
    (AnimationConfig.mk 1 1500 EasingT.ease false).easing
      = if "pulse" = "pulse" then EasingT.ease else EasingT.linear :=
  c2_easing_policy "pulse" (AnimationConfig.mk 1 1500 EasingT.ease false) (by rfl)

/-- C10: the timed transition lasts 1500 time-units for pulse and fade and
1200 time-units for every other animated style, and no transition exists
for skeleton. -/
theorem c10_duration_policy :
    (∀ (s : String) (cfg : AnimationConfig), animationFor s = some cfg →
      cfg.duration = if s = "pulse" ∨ s = "fade" then 1500 else 1200) ∧
    animationFor "skeleton" = none := by
  constructor
  · intro s cfg h
    unfold animationFor at h
    split at h
    · exact Option.noConfusion h
    · injection h with h
      subst h
      rfl
  · rfl

/-- C10 witness: the pulse transition lasts 1500 time-units. -/
theorem c10_duration_policy_witness :
    (AnimationConfig.mk 1 1500 EasingT.ease false).duration
      = if "pulse" = "pulse" ∨ "pulse" = "fade" then 1500 else 1200 :=
  c10_duration_policy.1 "pulse" (AnimationConfig.mk 1 1500 EasingT.ease false) (by rfl)

/-- C7: for skeleton no animation is created, the progress scalar keeps its
initial value 0 under every scheduler trace, and the rendered output is a
static box filled with `backgroundColor`, independent of progress. -/
theorem c7_skeleton_static :
    animationFor "skeleton" = none ∧
    (∀ updates : List ℚ, progressTrace "skeleton" updates 0 = 0) ∧
    (∀ (props : Props) (p q : ℚ), props.animationStyle = "skeleton" →
      render props p = renderSkeleton props p ∧
      render props p = render props q ∧
      (render props p).containerBackgroundColor = ColorExpr.const props.backgroundColor ∧
      (render props p).containerOpacity = none ∧
      (render props p).overlay = Overlay.noOverlay) := by
  refine ⟨rfl, fun updates => progressTrace_skeleton_const updates 0, ?_⟩
  intro props p q h
  rw [render_of_skeleton_tag props p h, render_of_skeleton_tag props q h]
  exact ⟨rfl, rfl, rfl, rfl, rfl⟩

/-- C7 witness: a concrete skeleton configuration renders identically at
two different progress values. -/
theorem c7_skeleton_static_witness :
    render (Props.mk (Dim.num 100) (Dim.num 20) "#8485852c" "#83848578" "skeleton" 4) 0
      = render (Props.mk (Dim.num 100) (Dim.num 20) "#8485852c" "#83848578" "skeleton" 4) 1 :=
  (c7_skeleton_static.2.2
    (Props.mk (Dim.num 100) (Dim.num 20) "#8485852c" "#83848578" "skeleton" 4) 0 1 rfl).2.1

/-- C3: when the `animationStyle` prop is omitted, the destructuring
default makes it `"fade"` and the component renders the fade strategy,
not the `"linear"` default stated by the doc comments. -/
theorem c3_default_is_fade (pin : PropsIn) (h : pin.animationStyle = none) :
    (applyDefaults pin).animationStyle = "fade" ∧
    (applyDefaults pin).animationStyle ≠ documentedDefaultAnimationStyle ∧
    ∀ p : ℚ, render (applyDefaults pin) p = renderFade (applyDefaults pin) p := by
  have hfade : (applyDefaults pin).animationStyle = "fade" := by
    simp [applyDefaults, h]
  refine ⟨hfade, ?_, fun p => render_of_fade_tag (applyDefaults pin) p hfade⟩
  rw [hfade]
  decide

/-- C3 witness: with every prop omitted the resolved style is `"fade"`. -/
theorem c3_default_is_fade_witness :
    (applyDefaults {}).animationStyle = "fade" :=
  (c3_default_is_fade {} rfl).1

theorem render_of_linear_tag (props : Props) (p : ℚ) (h : props.animationStyle = "linear") :
    render props p = renderLinear props p := by
  obtain ⟨w, ht, bg, ac, as, br⟩ := props
  subst h
  rfl

/-- C1 counterexample: with the default colours and `animationStyle =
"pulse"`, the mounted container is filled with `animationColor`
(`"#83848578"`), not with the requested `backgroundColor`
(`"#8485852c"`). -/
theorem c1_pulse_background_counterexample :
    (render (Props.mk (Dim.num 100) (Dim.num 20) "#8485852c" "#83848578" "pulse" 4)
        0).containerBackgroundColor
      ≠ ColorExpr.const "#8485852c" := by
  decide

/-- C1 (amended): for every known style tag the container receives the
requested width, height and borderRadius; the container fill equals the
requested backgroundColor at mount (progress 0) for every style except
pulse, which instead fills the container with animationColor. -/
theorem c1_container_base_props (props : Props)
    (h : props.animationStyle ∈ sevenStyles) (p : ℚ) :
    (render props p).containerWidth = props.width ∧
    (render props p).containerHeight = props.height ∧
    (render props p).containerBorderRadius = props.borderRadius ∧
    (props.animationStyle ≠ "pulse" →
      ColorExpr.atKey (render props 0).containerBackgroundColor 0 = some props.backgroundColor) ∧
    (props.animationStyle = "pulse" →
      (render props p).containerBackgroundColor = ColorExpr.const props.animationColor) := by
  obtain ⟨w, ht, bg, ac, as, br⟩ := props
  simp only [sevenStyles, List.mem_cons, List.not_mem_nil, or_false] at h
  rcases h with h | h | h | h | h | h | h <;> subst h
  · exact ⟨rfl, rfl, rfl, fun _ => rfl, fun hp => ((by decide : ("linear" : String) ≠ "pulse") hp).elim⟩
  · exact ⟨rfl, rfl, rfl, fun _ => rfl, fun hp => ((by decide : ("radial" : String) ≠ "pulse") hp).elim⟩
  · exact ⟨rfl, rfl, rfl, fun _ => rfl, fun hp => ((by decide : ("directional" : String) ≠ "pulse") hp).elim⟩
  · exact ⟨rfl, rfl, rfl, fun _ => rfl, fun hp => ((by decide : ("reverse" : String) ≠ "pulse") hp).elim⟩
  · exact ⟨rfl, rfl, rfl, fun hne => absurd rfl hne, fun _ => rfl⟩
  · refine ⟨rfl, rfl, rfl, fun _ => ?_, fun hp => ((by decide : ("fade" : String) ≠ "pulse") hp).elim⟩
    simp [render, renderFade, ColorExpr.atKey, keyLookup]
  · exact ⟨rfl, rfl, rfl, fun _ => rfl, fun hp => ((by decide : ("skeleton" : String) ≠ "pulse") hp).elim⟩

/-- C1 witness: a concrete radial configuration keeps the requested width. -/
theorem c1_container_base_props_witness :
    (render (Props.mk (Dim.num 7) (Dim.num 3) "#aaa" "#bbb" "radial" 2) 0).containerWidth
      = (Props.mk (Dim.num 7) (Dim.num 3) "#aaa" "#bbb" "radial" 2).width :=
  (c1_container_base_props
    (Props.mk (Dim.num 7) (Dim.num 3) "#aaa" "#bbb" "radial" 2) (by decide) 0).1

/-- C4 counterexample: both declared `animationStyle` unions contain the
`"reverse"` tag, so neither interface definition omits it. -/
theorem c4_reverse_counterexample :
    "reverse" ∈ tsxAnimationStyleUnion ∧ "reverse" ∈ dtsAnimationStyleUnion := by
  decide

/-- C4 (amended): both `SmartPlaceholderProps` interface definitions
declare the same full seven-tag union, including `"reverse"`. -/
theorem c4_reverse_in_both_unions :
    tsxAnimationStyleUnion = sevenStyles ∧
    dtsAnimationStyleUnion = sevenStyles ∧
    "reverse" ∈ tsxAnimationStyleUnion ∧
    "reverse" ∈ dtsAnimationStyleUnion := by
  decide

/-- C5: for the linear strategy with numeric width `w` the shimmer bar is
`0.3 * w` wide and its translation maps progress 0 to `-(0.3 * w)` and
progress 1 to `w`; for width 200 this is −60 at progress 0 and 200 at
progress 1. -/
theorem c5_linear_endpoints (props : Props) (w : ℚ) (h : props.width = Dim.num w) :
    (renderLinear props 0).overlay.barW = some (3 / 10 * w) ∧
    (renderLinear props 0).overlay.xShift = some (-(3 / 10 * w)) ∧
    (renderLinear props 1).overlay.xShift = some w ∧
    (render (Props.mk (Dim.num 200) (Dim.num 20) "#8485852c" "#83848578" "linear" 4)
        0).overlay.xShift = some (-60) ∧
    (render (Props.mk (Dim.num 200) (Dim.num 20) "#8485852c" "#83848578" "linear" 4)
        1).overlay.xShift = some 200 := by
  refine ⟨?_, ?_, ?_, ?_, ?_⟩
  · simp [renderLinear, h, Overlay.barW]
    try ring
  · simp [renderLinear, h, Overlay.xShift, interpolate2]
    try ring
  · simp [renderLinear, h, Overlay.xShift, interpolate2]
    try ring
  · rw [render_of_linear_tag _ _ rfl]
    simp [renderLinear, Overlay.xShift, interpolate2]
    try norm_num
  · rw [render_of_linear_tag _ _ rfl]
    simp [renderLinear, Overlay.xShift, interpolate2]
    try norm_num

/-- C5 witness: width 200 gives a 60-unit-wide shimmer bar. -/
theorem c5_linear_endpoints_witness :
    (renderLinear (Props.mk (Dim.num 200) (Dim.num 20) "#8485852c" "#83848578" "linear" 4)
        0).overlay.barW = some (3 / 10 * 200) :=
  (c5_linear_endpoints
    (Props.mk (Dim.num 200) (Dim.num 20) "#8485852c" "#83848578" "linear" 4) 200 rfl).1

/-- C6: for the reverse strategy with numeric width `w` the translation
maps progress 0 to `w` and progress 1 to `-(0.3 * w)`, and at every
progress `p` in `[0, 1]` it equals the linear strategy's translation at
`1 - p`. -/
theorem c6_reverse_mirror (props : Props) (w : ℚ) (h : props.width = Dim.num w) :
    (renderReverse props 0).overlay.xShift = some w ∧
    (renderReverse props 1).overlay.xShift = some (-(3 / 10 * w)) ∧
    ∀ p : ℚ, 0 ≤ p → p ≤ 1 →
      (renderReverse props p).overlay.xShift = (renderLinear props (1 - p)).overlay.xShift := by
  refine ⟨?_, ?_, ?_⟩
  · simp [renderReverse, h, Overlay.xShift, interpolate2]
    try ring
  · simp [renderReverse, h, Overlay.xShift, interpolate2]
    try ring
  · intro p _ _
    simp [renderReverse, renderLinear, h, Overlay.xShift, interpolate2]
    try ring

/-- C6 witness: at width 200 and progress 1/2 the reverse translation
equals the linear translation at 1/2. -/
theorem c6_reverse_mirror_witness :
    (renderReverse (Props.mk (Dim.num 200) (Dim.num 20) "#8485852c" "#83848578" "reverse" 4)
        (1 / 2)).overlay.xShift
      = (renderLinear (Props.mk (Dim.num 200) (Dim.num 20) "#8485852c" "#83848578" "reverse" 4)
          (1 - 1 / 2)).overlay.xShift :=
  (c6_reverse_mirror
    (Props.mk (Dim.num 200) (Dim.num 20) "#8485852c" "#83848578" "reverse" 4) 200 rfl).2.2
    (1 / 2) (by norm_num) (by norm_num)

/-- C8: the dispatch switch routes every tag outside the seven known
styles to the linear strategy. -/
theorem c8_unknown_tag_defaults_to_linear (props : Props) (p : ℚ)
    (h : props.animationStyle ∉ sevenStyles) :
    render props p = renderLinear props p := by
  unfold render
  split <;> first
    | rfl
    | (rename_i heq
       rw [heq] at h
       exact absurd (by decide) h)

/-- C8 witness: a configuration with the unknown tag `"bogus"` renders
the linear strategy. -/
theorem c8_unknown_tag_witness :
    render (Props.mk (Dim.num 100) (Dim.num 20) "#8485852c" "#83848578" "bogus" 4) 0
      = renderLinear (Props.mk (Dim.num 100) (Dim.num 20) "#8485852c" "#83848578" "bogus" 4) 0 :=
  c8_unknown_tag_defaults_to_linear
    (Props.mk (Dim.num 100) (Dim.num 20) "#8485852c" "#83848578" "bogus" 4) 0 (by decide)

/-- C9: with a non-numeric width the linear and reverse strategies compute
the bar size and translation endpoints from the baseline 100, with a
non-numeric height the directional strategy uses the baseline 20, and the
container still receives the caller's requested width/height unchanged. -/
theorem c9_proportional_fallback (props : Props) :
    (∀ s, props.width = Dim.str s →
      (∀ p : ℚ, (renderLinear props p).containerWidth = props.width ∧
        (renderReverse props p).containerWidth = props.width) ∧
      (renderLinear props 0).overlay.barW = some 30 ∧
      (renderReverse props 0).overlay.barW = some 30 ∧
      (renderLinear props 0).overlay.xShift = some (-30) ∧
      (renderLinear props 1).overlay.xShift = some 100 ∧
      (renderReverse props 0).overlay.xShift = some 100 ∧
      (renderReverse props 1).overlay.xShift = some (-30)) ∧
    (∀ s, props.height = Dim.str s →
      (∀ p : ℚ, (renderDirectional props p).containerHeight = props.height) ∧
      (renderDirectional props 0).overlay.barH = some 6 ∧
      (renderDirectional props 0).overlay.yShift = some (-6) ∧
      (renderDirectional props 1).overlay.yShift = some 20) := by
  constructor
  · intro s h
    refine ⟨fun p => ⟨rfl, rfl⟩, ?_, ?_, ?_, ?_, ?_, ?_⟩ <;>
      · simp [renderLinear, renderReverse, h, Overlay.barW, Overlay.xShift, interpolate2]
        try norm_num
  · intro s h
    refine ⟨fun p => rfl, ?_, ?_, ?_⟩ <;>
      · simp [renderDirectional, h, Overlay.barH, Overlay.yShift, interpolate2]
        try norm_num

/-- C9 witness: with width `"100%"` the linear bar is 30 units wide. -/
theorem c9_proportional_fallback_witness :
    (renderLinear (Props.mk (Dim.str "100%") (Dim.num 20) "#8485852c" "#83848578" "linear" 4)
        0).overlay.barW = some 30 :=
  ((c9_proportional_fallback
    (Props.mk (Dim.str "100%") (Dim.num 20) "#8485852c" "#83848578" "linear" 4)).1
    "100%" rfl).2.1
